import Mathlib

/-!
Shallow embedding of the oig_cloud front-end dashboard layer:

* `OigBatteryForecastCard.combineBatteryData` / `combineSolarData` /
  `combineConsumptionData` — the series builder merging actual and predicted
  attribute buckets into chronologically sorted point lists.
* `ApexChartsLoader.load` / `loadScript` — the CDN script loader with its
  duplicate-script guard, per-source failure handling and aggregate failure.
* `OigCloudDashboard.init` / `renderBatteryChart` — dashboard initialization
  and the battery chart spec builder (axis ranges, spot-price point markers).

Timestamps are modelled as the integer millisecond values produced by
`new Date(key).getTime()`; bucket objects are modelled as association lists
in insertion order (`Object.entries` order).  The JavaScript
`Array.prototype.sort` (stable since ES2019) with comparator
`(a, b) => a.x - b.x` is modelled as `List.mergeSort` with the boolean
relation `leX`, which is stable and sorts ascending by `x`.
-/

namespace OigBatteryForecastCard

/-- Provenance of a merged point: which family of buckets it came from. -/
inductive Kind where
  | actual
  | predicted
deriving DecidableEq

/-- A chart point `{x, y}` as pushed by the combine functions, instrumented
with the bucket kind it originated from (the source pushes plain `{x, y}`;
the tag records which loop pushed it and does not affect sorting). -/
structure TPt where
  x : Int
  y : Int
  kind : Kind
deriving DecidableEq

/-- Comparator `(a, b) => a.x - b.x` of the source, as a boolean `le`. -/
def leX (a b : TPt) : Bool := a.x ≤ b.x

/-- A point pushed from an actual-data bucket entry. -/
def mkActual (p : Int × Int) : TPt := ⟨p.1, p.2, Kind.actual⟩

/-- A point pushed from a predicted-data bucket entry. -/
def mkPredicted (p : Int × Int) : TPt := ⟨p.1, p.2, Kind.predicted⟩

/-- JavaScript object spread `{...a, ...b}`: keys of `a` in order (values
overridden by `b` where present), then keys of `b` not in `a`, in order. -/
def spreadMerge (a b : List (Int × Int)) : List (Int × Int) :=
  a.map (fun p =>
      match b.find? (fun q => q.1 == p.1) with
      | some q => (p.1, q.2)
      | none => p)
    ++ b.filter (fun q => !(a.any (fun p => p.1 == q.1)))

/-- `combineBatteryData` (src/unnamed/part_001 lines 354-396): pushes
yesterday-actual and today-actual entries unconditionally, today-predicted
entries only when `time >= now`, tomorrow-predicted entries unconditionally,
then sorts by `x` with the stable comparator. -/
def combineBatteryData (attrs_battery_yesterday_actual attrs_battery_today_actual
    attrs_battery_today_predicted attrs_battery_tomorrow_predicted : List (Int × Int))
    (now : Int) : List TPt :=
  ((attrs_battery_yesterday_actual.map mkActual
      ++ attrs_battery_today_actual.map mkActual)
    ++ ((attrs_battery_today_predicted.filter (fun p => now ≤ p.1)).map mkPredicted
      ++ attrs_battery_tomorrow_predicted.map mkPredicted)).mergeSort leX

/-- `combineSolarData` (src/unnamed/part_001 lines 398-426): actual =
`{...yesterdayActual, ...todayActual}` pushed unconditionally; predicted =
`{...todayPredicted, ...tomorrowPredicted}` pushed only when `time >= now`;
then the stable sort by `x`. -/
def combineSolarData (attrs_solar_yesterday_actual attrs_solar_today_actual
    attrs_solar_today_predicted attrs_solar_tomorrow_predicted : List (Int × Int))
    (now : Int) : List TPt :=
  ((spreadMerge attrs_solar_yesterday_actual attrs_solar_today_actual).map mkActual
    ++ ((spreadMerge attrs_solar_today_predicted attrs_solar_tomorrow_predicted).filter
        (fun p => now ≤ p.1)).map mkPredicted).mergeSort leX

/-- `combineConsumptionData` (src/unnamed/part_001 lines 428-456): like the
solar merge but every pushed value goes through `Math.abs`. -/
def combineConsumptionData (attrs_consumption_yesterday_actual
    attrs_consumption_today_actual attrs_consumption_today_predicted
    attrs_consumption_tomorrow_predicted : List (Int × Int))
    (now : Int) : List TPt :=
  ((spreadMerge attrs_consumption_yesterday_actual attrs_consumption_today_actual).map
      (fun p => TPt.mk p.1 (abs p.2) Kind.actual)
    ++ ((spreadMerge attrs_consumption_today_predicted
          attrs_consumption_tomorrow_predicted).filter
        (fun p => now ≤ p.1)).map (fun p => TPt.mk p.1 (abs p.2) Kind.predicted)).mergeSort leX

end OigBatteryForecastCard

namespace ApexChartsLoader

/-- Result of an (a)waited loader promise: resolved, or rejected with the
error message the source constructs. -/
inductive ScriptResult where
  | ok
  | error (msg : String)
deriving DecidableEq

/-- The shared page state the loader reads and writes: the `src` attributes
of script elements in the document, and whether `window.ApexCharts` exists. -/
structure DomState where
  scripts : List String
  apex : Bool
deriving DecidableEq

/-- Oracle for how the network resolves one freshly created script element:
its `onload` fires (and `window.ApexCharts` is then present or not), its
`onerror` fires, or the timeout elapses first. -/
inductive NetOutcome where
  | onload (apexAfter : Bool)
  | onerror
  | timeout
deriving DecidableEq

/-- One `loadScript` call: the settled promise, whether a script element was
created and appended (a network fetch issued), and the resulting page state. -/
structure ScriptStep where
  result : ScriptResult
  fetched : Bool
  dom : DomState
deriving DecidableEq

def scriptExistsMsg : String := "Script existuje, ale ApexCharts objekt není dostupný"

def apexMissingMsg : String := "ApexCharts objekt není dostupný po načtení skriptu"

def allFailedMsg : String := "❌ Nepodařilo se načíst Apex Charts z žádného CDN zdroje"

def timeoutMsgFor (src : String) : String := "Timeout při načítání " ++ src

def loadErrorMsgFor (src : String) : String := "Chyba při načítání " ++ src

/-- `ApexChartsLoader.loadScript` (chart-config.js lines 181-221).  If a
script element with this `src` already exists it settles immediately from
the current `window.ApexCharts` state (never consulting the network);
otherwise it creates and appends a script element and settles according to
the network outcome, removing the element again on every failure path. -/
def loadScript (st : DomState) (src : String) (net : NetOutcome) : ScriptStep :=
  if st.scripts.contains src then
    if st.apex then ⟨ScriptResult.ok, false, st⟩
    else ⟨ScriptResult.error scriptExistsMsg, false, st⟩
  else
    match net with
    | NetOutcome.onload apexAfter =>
      if apexAfter then ⟨ScriptResult.ok, true, ⟨st.scripts ++ [src], true⟩⟩
      else ⟨ScriptResult.error apexMissingMsg, true, st⟩
    | NetOutcome.onerror => ⟨ScriptResult.error (loadErrorMsgFor src), true, st⟩
    | NetOutcome.timeout => ⟨ScriptResult.error (timeoutMsgFor src), true, st⟩

/-- Outcome of `ApexChartsLoader.load`: the settled promise, the final page
state, and how many network fetches (script elements) were issued. -/
structure LoadOutcome where
  result : ScriptResult
  dom : DomState
  fetches : Nat
deriving DecidableEq

/-- The `for` loop of `ApexChartsLoader.load` (chart-config.js lines
154-178): try each source in order, return on the first success, swallow
each per-source error (it is only logged), and throw the single fixed
aggregate message when the list is exhausted. -/
def loadLoop (st : DomState) : List (String × NetOutcome) → LoadOutcome
  | [] => ⟨ScriptResult.error allFailedMsg, st, 0⟩
  | (src, net) :: rest =>
    let step := loadScript st src net
    match step.result with
    | ScriptResult.ok => ⟨ScriptResult.ok, step.dom, if step.fetched then 1 else 0⟩
    | ScriptResult.error _ =>
      let next := loadLoop step.dom rest
      ⟨next.result, next.dom, (if step.fetched then 1 else 0) + next.fetches⟩

/-- `ApexChartsLoader.load` (chart-config.js lines 143-179): if
`window.ApexCharts` is already present, resolve at once without touching the
network; otherwise run the source loop.  Each attempted source is paired
with the oracle for how its fetch would resolve. -/
def load (st : DomState) (attempts : List (String × NetOutcome)) : LoadOutcome :=
  if st.apex then ⟨ScriptResult.ok, st, 0⟩ else loadLoop st attempts

/-- A sample source URL used in concrete instances. -/
def srcA : String := "https://cdn.example/a.js"

/-- A second sample source URL used in concrete instances. -/
def srcB : String := "https://cdn.example/b.js"

end ApexChartsLoader

namespace OigCloudDashboard

/-- One entry of the `timeline_data` attribute consumed by
`renderBatteryChart`.  `timestamp` is the parsed millisecond instant;
`spot_price_czk` is `none` when the source value is `null`. -/
structure TimelinePoint where
  timestamp : Int
  solar_production_w : ℚ
  battery_capacity_kwh : ℚ
  spot_price_czk : Option ℚ
  is_charging : Bool
deriving DecidableEq

/-- The four arrays the `timelineData.forEach` loop accumulates
(src/unnamed/part_000 lines 181-204). -/
structure BatteryArrays where
  solarData : List (Int × ℚ)
  batteryData : List (Int × ℚ)
  spotPrices : List (Int × ℚ)
  chargingPeriods : List (Int × ℚ)
deriving DecidableEq

/-- One iteration of the `forEach` loop: push onto the four arrays,
`spotPrices` only when the price is not `null`, `chargingPeriods` only when
`is_charging`. -/
def collectStep (acc : BatteryArrays) (point : TimelinePoint) : BatteryArrays where
  solarData := acc.solarData ++ [(point.timestamp, point.solar_production_w)]
  batteryData := acc.batteryData ++ [(point.timestamp, point.battery_capacity_kwh)]
  spotPrices := acc.spotPrices ++
    (match point.spot_price_czk with
     | some p => [(point.timestamp, p)]
     | none => [])
  chargingPeriods := acc.chargingPeriods ++
    (if point.is_charging then [(point.timestamp, point.battery_capacity_kwh)] else [])

/-- The whole `timelineData.forEach` accumulation. -/
def collectBatteryArrays (tl : List TimelinePoint) : BatteryArrays :=
  tl.foldl collectStep ⟨[], [], [], []⟩

/-- JavaScript `v || d` on an optional numeric attribute: `undefined`,
`null` and `0` are falsy and select the default (`NaN`, also falsy, has no
counterpart in `ℚ`). -/
def jsNumOr (v : Option ℚ) (d : ℚ) : ℚ :=
  match v with
  | none => d
  | some x => if x = 0 then d else x

/-- `price.toFixed(1)`: the label renders the price to one decimal place;
modelled as the integer number of tenths displayed. -/
def toFixed1 (p : ℚ) : ℤ := round (10 * p)

/-- A spot-price point marker from `annotations.points`
(src/unnamed/part_000 lines 300-316): placed at `y = price * 2`, labelled
with the unscaled `price.toFixed(1)`. -/
structure AnnotPoint where
  x : Int
  y : ℚ
  labelTenths : ℤ
deriving DecidableEq

/-- An axis range `{min, max}`. -/
structure YAxis where
  min : ℚ
  max : ℚ
deriving DecidableEq

/-- The data-bearing fields of the options object `renderBatteryChart`
builds (src/unnamed/part_000 lines 209-321); purely visual styling
constants (colors, fonts, label formats) are elided. -/
structure BatteryChartSpec where
  solarSeries : List (Int × ℚ)
  batterySeries : List (Int × ℚ)
  chargingSeries : List (Int × ℚ)
  capacityAxis : YAxis
  productionAxis : YAxis
  annots : List AnnotPoint
  titleCurrentKwh : ℚ
deriving DecidableEq

/-- `renderBatteryChart` (src/unnamed/part_000 lines 169-329), from the
`timeline_data`, `max_capacity_kwh` and `current_battery_kwh` attributes.
Returns `none` on the early-return path (`!timelineData.length`), which
shows a placeholder instead of building the options object. -/
def renderBatteryChart (timeline_data : List TimelinePoint)
    (max_capacity_kwh current_battery_kwh : Option ℚ) : Option BatteryChartSpec :=
  if timeline_data.isEmpty then none
  else
    let arrays := collectBatteryArrays timeline_data
    some
      { solarSeries := arrays.solarData
        batterySeries := arrays.batteryData
        chargingSeries := arrays.chargingPeriods
        capacityAxis := ⟨0, jsNumOr max_capacity_kwh 15⟩
        productionAxis := ⟨0, 3000⟩
        annots := arrays.spotPrices.map (fun tp => ⟨tp.1, tp.2 * 2, toFixed1 tp.2⟩)
        titleCurrentKwh := jsNumOr current_battery_kwh 0 }

/-- Result of `OigCloudDashboard.init`. -/
inductive InitResult where
  | ok
  | error (msg : String)
deriving DecidableEq

/-- What `init` did: the thrown-or-completed result, whether
`loadAndRenderCharts` ran, and whether the 120 s `setInterval` refresh was
scheduled. -/
structure InitOutcome where
  result : InitResult
  chartsLoaded : Bool
  refreshScheduled : Bool
deriving DecidableEq

def missingParamsMsg : String := "Missing entry_id or inverter_sn parameters"

/-- JavaScript truthiness of a nullable string (`URLSearchParams.get`
returns `null` for an absent parameter): `null` and `""` are falsy. -/
def jsTruthy (s : Option String) : Bool :=
  match s with
  | none => false
  | some v => !v.isEmpty

/-- `OigCloudDashboard.init` (src/unnamed/part_000 lines 15-31): throws
before rendering anything or scheduling the refresh when
`!this.entryId || !this.inverterSn`; otherwise loads the charts and
schedules the periodic refresh. -/
def init (entryId inverterSn : Option String) : InitOutcome :=
  if !(jsTruthy entryId) || !(jsTruthy inverterSn) then
    ⟨InitResult.error missingParamsMsg, false, false⟩
  else
    ⟨InitResult.ok, true, true⟩

/-- A present-but-empty query parameter value (`?entry_id=`). -/
def blankParam : String := ""

/-- A sample non-empty `entry_id` value. -/
def entryParam : String := "entry1"

/-- A sample non-empty `inverter_sn` value. -/
def snParam : String := "sn42"

end OigCloudDashboard

/-! ## Series builder lemmas -/

namespace OigBatteryForecastCard

theorem leX_trans : ∀ (a b c : TPt), leX a b → leX b c → leX a c := by
  intro a b c hab hbc
  simp only [leX, decide_eq_true_eq] at hab hbc ⊢
  omega

theorem leX_total : ∀ (a b : TPt), leX a b || leX b a := by
  intro a b
  rcases le_total a.x b.x with h | h <;> simp [leX, h]

/-- Stability of the modelled sort, by key: filtering the sorted list at any
fixed `x`-key gives back the input filtered at that key, in input order. -/
theorem mergeSort_filter_key (l : List TPt) (k : Int) :
    (l.mergeSort leX).filter (fun e => e.x == k) = l.filter (fun e => e.x == k) := by
  have hc : (l.filter (fun e => e.x == k)).Pairwise (fun a b => leX a b) := by
    apply List.pairwise_of_forall_mem_list
    intro a ha b hb
    have hax := List.of_mem_filter ha
    have hbx := List.of_mem_filter hb
    simp only [beq_iff_eq] at hax hbx
    simp [leX, hax, hbx]
  have hsub : (l.filter (fun e => e.x == k)).Sublist (l.mergeSort leX) :=
    List.sublist_mergeSort leX_trans leX_total hc (List.filter_sublist l)
  have hsub2 : (l.filter (fun e => e.x == k)).Sublist
      ((l.mergeSort leX).filter (fun e => e.x == k)) := by
    have h2 := hsub.filter (fun e => e.x == k)
    simpa [List.filter_filter] using h2
  have hperm : List.Perm ((l.mergeSort leX).filter (fun e => e.x == k))
      (l.filter (fun e => e.x == k)) :=
    (List.mergeSort_perm l leX).filter _
  exact (hsub2.eq_of_length hperm.length_eq.symm).symm

/-- In a concatenation of actual-kind points followed by predicted-kind
points, no pair consisting of a predicted point followed by an actual point
occurs as a sublist. -/
theorem not_pair_sublist_append (A P : List TPt) (u v : TPt)
    (hA : ∀ e ∈ A, e.kind = Kind.actual) (hP : ∀ e ∈ P, e.kind = Kind.predicted)
    (hu : u.kind = Kind.predicted) (hv : v.kind = Kind.actual) :
    ¬ ([u, v].Sublist (A ++ P)) := by
  induction A with
  | nil =>
    intro h
    simp only [List.nil_append] at h
    have hvP : v ∈ P := h.subset (by simp)
    rw [hP v hvP] at hv
    cases hv
  | cons a A ih =>
    intro h
    cases h with
    | cons _ h2 => exact ih (fun e he => hA e (List.mem_cons_of_mem a he)) h2
    | cons₂ _ h2 =>
      have ha : u.kind = Kind.actual := hA u (List.mem_cons_self u _)
      rw [hu] at ha
      cases ha

/-- Sorting a list whose actual-kind points all precede its predicted-kind
points never places a predicted point strictly before an actual point with
the same `x` (stability of the sort). -/
theorem mergeSort_tiebreak (A P : List TPt)
    (hA : ∀ e ∈ A, e.kind = Kind.actual) (hP : ∀ e ∈ P, e.kind = Kind.predicted) :
    ((A ++ P).mergeSort leX).Pairwise
      (fun u v => u.x = v.x → ¬(u.kind = Kind.predicted ∧ v.kind = Kind.actual)) := by
  rw [List.pairwise_iff_forall_sublist]
  intro u v hsub hx huv
  obtain ⟨hu, hv⟩ := huv
  have h1 : ([u, v].filter (fun e => e.x == v.x)).Sublist
      (((A ++ P).mergeSort leX).filter (fun e => e.x == v.x)) :=
    hsub.filter _
  have h2 : [u, v].filter (fun e => e.x == v.x) = [u, v] := by
    simp [List.filter_cons, hx]
  rw [h2, mergeSort_filter_key, List.filter_append] at h1
  exact not_pair_sublist_append _ _ u v
    (fun e he => hA e (List.mem_of_mem_filter he))
    (fun e he => hP e (List.mem_of_mem_filter he)) hu hv h1

/-- The modelled sort is ascending in `x`. -/
theorem mergeSort_sorted_x (l : List TPt) :
    (l.mergeSort leX).Pairwise (fun u v => u.x ≤ v.x) := by
  have h := List.sorted_mergeSort leX_trans leX_total l
  exact h.imp (fun hab => by simpa [leX] using hab)

end OigBatteryForecastCard

/-! ## Loader lemmas -/

namespace ApexChartsLoader

/-- Whenever the source loop fails, its error is the one fixed aggregate
message: every per-source reason was discarded (only logged). -/
theorem loadLoop_error_msg :
    ∀ (attempts : List (String × NetOutcome)) (st : DomState) (msg : String),
      (loadLoop st attempts).result = ScriptResult.error msg → msg = allFailedMsg := by
  intro attempts
  induction attempts with
  | nil =>
    intro st msg h
    simp only [loadLoop] at h
    exact (ScriptResult.error.inj h).symm
  | cons a rest ih =>
    intro st msg h
    obtain ⟨src, net⟩ := a
    simp only [loadLoop] at h
    split at h
    · exact absurd h (by simp)
    · exact ih _ _ h

end ApexChartsLoader

/-! ## Dashboard lemmas -/

namespace OigCloudDashboard

/-- The `spotPrices` array accumulated by the `forEach` loop collects
exactly the non-`null` prices, in timeline order. -/
theorem foldl_collectStep_spotPrices :
    ∀ (tl : List TimelinePoint) (acc : BatteryArrays),
      (tl.foldl collectStep acc).spotPrices
        = acc.spotPrices
          ++ tl.filterMap (fun pt => pt.spot_price_czk.map (fun p => (pt.timestamp, p))) := by
  intro tl
  induction tl with
  | nil => intro acc; simp
  | cons pt tl ih =>
    intro acc
    rw [List.foldl_cons, ih]
    cases hsp : pt.spot_price_czk <;>
      simp [collectStep, hsp, List.filterMap_cons]

theorem collectBatteryArrays_spotPrices (tl : List TimelinePoint) :
    (collectBatteryArrays tl).spotPrices
      = tl.filterMap (fun pt => pt.spot_price_czk.map (fun p => (pt.timestamp, p))) := by
  simpa using foldl_collectStep_spotPrices tl ⟨[], [], [], []⟩

end OigCloudDashboard

/-! ## Claims about the series builder -/

namespace OigBatteryForecastCard

/-- Claim C3: every merged series (battery, solar, consumption) is sorted
ascending by timestamp, and at equal timestamps an actual-source point is
never preceded by a predicted-source point (stable tie-break: actual data
is not masked by a forecast at the same instant). -/
theorem c3_merged_sorted_stable_tiebreak :
    ∀ (ya ta tp tmp sya sta stp stmp cya cta ctp ctmp : List (Int × Int)) (now : Int),
      (combineBatteryData ya ta tp tmp now).Pairwise
          (fun u v => u.x ≤ v.x
            ∧ (u.x = v.x → ¬(u.kind = Kind.predicted ∧ v.kind = Kind.actual)))
        ∧ (combineSolarData sya sta stp stmp now).Pairwise
          (fun u v => u.x ≤ v.x
            ∧ (u.x = v.x → ¬(u.kind = Kind.predicted ∧ v.kind = Kind.actual)))
        ∧ (combineConsumptionData cya cta ctp ctmp now).Pairwise
          (fun u v => u.x ≤ v.x
            ∧ (u.x = v.x → ¬(u.kind = Kind.predicted ∧ v.kind = Kind.actual))) := by
  intro ya ta tp tmp sya sta stp stmp cya cta ctp ctmp now
  refine ⟨?_, ?_, ?_⟩
  · exact (mergeSort_sorted_x _).and (mergeSort_tiebreak _ _
      (by
        intro e he
        simp only [List.mem_append, List.mem_map] at he
        rcases he with ⟨p, _, rfl⟩ | ⟨p, _, rfl⟩ <;> rfl)
      (by
        intro e he
        simp only [List.mem_append, List.mem_map, List.mem_filter] at he
        rcases he with ⟨p, _, rfl⟩ | ⟨p, _, rfl⟩ <;> rfl))
  · exact (mergeSort_sorted_x _).and (mergeSort_tiebreak _ _
      (by
        intro e he
        simp only [List.mem_map] at he
        rcases he with ⟨p, _, rfl⟩
        rfl)
      (by
        intro e he
        simp only [List.mem_map] at he
        rcases he with ⟨p, _, rfl⟩
        rfl))
  · exact (mergeSort_sorted_x _).and (mergeSort_tiebreak _ _
      (by
        intro e he
        simp only [List.mem_map] at he
        rcases he with ⟨p, _, rfl⟩
        rfl)
      (by
        intro e he
        simp only [List.mem_map] at he
        rcases he with ⟨p, _, rfl⟩
        rfl))

/-- Claim C1 counterexample: a tomorrow-predicted battery bucket entry whose
instant (5) is strictly before the merge-time `now` (10) is NOT dropped by
`combineBatteryData` — it appears in the merged series, because the source
filters only the today-predicted bucket by `time >= now` and pushes the
tomorrow-predicted bucket unconditionally. -/
theorem c1_counterexample :
    combineBatteryData [] [] [] [((5 : Int), (42 : Int))] 10
        = [TPt.mk 5 42 Kind.predicted]
      ∧ (TPt.mk 5 42 Kind.predicted).kind = Kind.predicted
      ∧ (TPt.mk 5 42 Kind.predicted).x < 10 := by
  refine ⟨?_, rfl, by decide⟩
  simp [combineBatteryData, mkPredicted]

/-- Claim C1, amended: in the solar and consumption merges every
predicted-tagged point with instant strictly before `now` is absent; in the
battery merge this cutoff applies only to the today-predicted bucket — any
stale predicted point that survives must come from the tomorrow-predicted
bucket, which is included unconditionally. -/
theorem c1_predicted_cutoff :
    ∀ (ya ta tp tmp sya sta stp stmp cya cta ctp ctmp : List (Int × Int)) (now : Int),
      (∀ p ∈ combineBatteryData ya ta tp tmp now,
          p.kind = Kind.predicted → p.x < now → (p.x, p.y) ∈ tmp)
        ∧ (∀ p ∈ combineSolarData sya sta stp stmp now,
            p.kind = Kind.predicted → ¬ p.x < now)
        ∧ (∀ p ∈ combineConsumptionData cya cta ctp ctmp now,
            p.kind = Kind.predicted → ¬ p.x < now) := by
  intro ya ta tp tmp sya sta stp stmp cya cta ctp ctmp now
  refine ⟨?_, ?_, ?_⟩
  · intro p hp hk hlt
    simp only [combineBatteryData, List.mem_mergeSort, List.mem_append, List.mem_map,
      List.mem_filter, decide_eq_true_eq] at hp
    rcases hp with (⟨q, _, rfl⟩ | ⟨q, _, rfl⟩) | (⟨q, hq2, rfl⟩ | ⟨q, hq, rfl⟩)
    · exact Kind.noConfusion hk
    · exact Kind.noConfusion hk
    · exact absurd hlt (not_lt.mpr hq2.2)
    · simpa [mkPredicted] using hq
  · intro p hp hk
    simp only [combineSolarData, List.mem_mergeSort, List.mem_append, List.mem_map,
      List.mem_filter, decide_eq_true_eq] at hp
    rcases hp with ⟨q, _, rfl⟩ | ⟨q, hq2, rfl⟩
    · exact Kind.noConfusion hk
    · exact not_lt.mpr hq2.2
  · intro p hp hk
    simp only [combineConsumptionData, List.mem_mergeSort, List.mem_append, List.mem_map,
      List.mem_filter, decide_eq_true_eq] at hp
    rcases hp with ⟨q, _, rfl⟩ | ⟨q, hq2, rfl⟩
    · exact Kind.noConfusion hk
    · exact not_lt.mpr hq2.2

/-- Witness for `c1_predicted_cutoff` at a concrete input: the stale point
`(5, 42)` of the battery merge at `now = 10` indeed comes from the
tomorrow-predicted bucket. -/
theorem c1_predicted_cutoff_witness :
    TPt.mk 5 42 Kind.predicted
        ∈ combineBatteryData [] [] [] [((5 : Int), (42 : Int))] 10
      ∧ ((5 : Int), (42 : Int)) ∈ [((5 : Int), (42 : Int))] := by
  have hmem : TPt.mk 5 42 Kind.predicted
      ∈ combineBatteryData [] [] [] [((5 : Int), (42 : Int))] 10 := by
    simp [combineBatteryData, mkPredicted]
  exact ⟨hmem,
    (c1_predicted_cutoff [] [] [] [((5 : Int), (42 : Int))] [] [] [] [] [] [] [] [] 10).1
      (TPt.mk 5 42 Kind.predicted) hmem rfl (by decide)⟩

end OigBatteryForecastCard

/-! ## Claims about the resource loader -/

namespace ApexChartsLoader

/-- Claim C2 counterexample: when every source fails, the failure result of
`load` is one fixed message that carries no per-source reasons — the result
for one failing source is identical to the result for two failing sources
with different failure reasons, so it cannot list one reason per attempted
source in source order. -/
theorem c2_counterexample :
    (load ⟨[], false⟩ [(srcA, NetOutcome.onerror)]).result
        = (load ⟨[], false⟩
            [(srcA, NetOutcome.onerror), (srcB, NetOutcome.timeout)]).result
      ∧ (load ⟨[], false⟩ [(srcA, NetOutcome.onerror)]).result
        = ScriptResult.error allFailedMsg
      ∧ (load ⟨[], false⟩
          [(srcA, NetOutcome.onerror), (srcB, NetOutcome.timeout)]).fetches = 2 :=
  ⟨rfl, rfl, rfl⟩

/-- Claim C2, amended: when the sources are exhausted without success,
`load` rejects with the single fixed aggregate message, independent of how
many sources were attempted and of their individual failure reasons (those
are only written to the console). -/
theorem c2_failure_single_fixed_message :
    ∀ (st : DomState) (attempts : List (String × NetOutcome)) (msg : String),
      (load st attempts).result = ScriptResult.error msg → msg = allFailedMsg := by
  intro st attempts msg h
  unfold load at h
  split at h
  · exact absurd h (by simp)
  · exact loadLoop_error_msg attempts st msg h

/-- Witness for `c2_failure_single_fixed_message` at a concrete failing
run. -/
theorem c2_failure_single_fixed_message_witness :
    (load ⟨[], false⟩ [(srcA, NetOutcome.onerror)]).result
        = ScriptResult.error allFailedMsg
      ∧ allFailedMsg = allFailedMsg :=
  ⟨rfl, c2_failure_single_fixed_message ⟨[], false⟩ [(srcA, NetOutcome.onerror)]
    allFailedMsg rfl⟩

/-- Claim C4: `load` is idempotent — when `window.ApexCharts` is already
present it resolves immediately, leaves the page state unchanged (no script
element is created), and issues zero network fetches (no source is
attempted), whatever the source list. -/
theorem c4_load_idempotent_when_present :
    ∀ (scripts : List String) (attempts : List (String × NetOutcome)),
      load ⟨scripts, true⟩ attempts = ⟨ScriptResult.ok, ⟨scripts, true⟩, 0⟩ := by
  intro scripts attempts
  rfl

/-- Claim C5 counterexample: with the identical network fate (the script
loads and the library becomes present), a fresh caller of `loadScript`
succeeds, but a caller arriving while that script element is already in the
document (fetch in flight, library not yet present) gets an immediate
rejection — it does NOT observe the outcome of the single in-flight
attempt. -/
theorem c5_counterexample :
    (loadScript ⟨[srcA], false⟩ srcA (NetOutcome.onload true)).result
        = ScriptResult.error scriptExistsMsg
      ∧ (loadScript ⟨[], false⟩ srcA (NetOutcome.onload true)).result
        = ScriptResult.ok
      ∧ (loadScript ⟨[], false⟩ srcA (NetOutcome.onload true)).dom
        = ⟨[srcA], true⟩ := by
  refine ⟨?_, rfl, rfl⟩
  simp [loadScript]

/-- Claim C5, amended: while a source's script element is already in the
document, a second caller issues no duplicate fetch for that source and
leaves the page state unchanged, but (when the library is not yet present)
it fails immediately with the script-exists error instead of observing the
in-flight attempt's outcome. -/
theorem c5_no_duplicate_fetch_no_shared_outcome :
    ∀ (scripts : List String) (apex : Bool) (src : String) (net : NetOutcome),
      scripts.contains src = true →
      (loadScript ⟨scripts, apex⟩ src net).fetched = false
        ∧ (loadScript ⟨scripts, apex⟩ src net).dom = ⟨scripts, apex⟩
        ∧ (apex = false →
            (loadScript ⟨scripts, apex⟩ src net).result
              = ScriptResult.error scriptExistsMsg) := by
  intro scripts apex src net h
  have hm : src ∈ scripts := by simpa using h
  cases apex <;> simp [loadScript, hm]

/-- Witness for `c5_no_duplicate_fetch_no_shared_outcome` at a concrete
in-flight state. -/
theorem c5_no_duplicate_fetch_no_shared_outcome_witness :
    [srcA].contains srcA = true
      ∧ (loadScript ⟨[srcA], false⟩ srcA NetOutcome.timeout).fetched = false
      ∧ (loadScript ⟨[srcA], false⟩ srcA NetOutcome.timeout).result
        = ScriptResult.error scriptExistsMsg := by
  have h : [srcA].contains srcA = true := by simp
  obtain ⟨h1, _, h3⟩ :=
    c5_no_duplicate_fetch_no_shared_outcome [srcA] false srcA NetOutcome.timeout h
  exact ⟨h, h1, h3 rfl⟩

/-- Claim C9: if a script element for the source URL already exists but the
library object is not yet present, `loadScript` rejects immediately with
the script-exists error — the result is the same for every possible network
outcome, i.e. it does not wait for the in-flight script to finish. -/
theorem c9_existing_script_rejects_immediately :
    ∀ (scripts : List String) (src : String) (net : NetOutcome),
      scripts.contains src = true →
      loadScript ⟨scripts, false⟩ src net
        = ⟨ScriptResult.error scriptExistsMsg, false, ⟨scripts, false⟩⟩ := by
  intro scripts src net h
  have hm : src ∈ scripts := by simpa using h
  simp [loadScript, hm]

/-- Witness for `c9_existing_script_rejects_immediately` at a concrete
state. -/
theorem c9_existing_script_rejects_immediately_witness :
    [srcA].contains srcA = true
      ∧ loadScript ⟨[srcA], false⟩ srcA NetOutcome.onerror
        = ⟨ScriptResult.error scriptExistsMsg, false, ⟨[srcA], false⟩⟩ := by
  have h : [srcA].contains srcA = true := by simp
  exact ⟨h, c9_existing_script_rejects_immediately [srcA] srcA NetOutcome.onerror h⟩

end ApexChartsLoader

/-! ## Claims about the dashboard -/

namespace OigCloudDashboard

/-- Claim C6: when `max_capacity_kwh` is absent, the battery chart spec's
left (capacity) axis range is exactly `[0, 15]` — minimum `0`, maximum the
documented default `15`. -/
theorem c6_default_capacity_axis :
    ∀ (tl : List TimelinePoint) (cur : Option ℚ) (spec : BatteryChartSpec),
      renderBatteryChart tl none cur = some spec →
      spec.capacityAxis = YAxis.mk 0 15 := by
  intro tl cur spec h
  unfold renderBatteryChart at h
  split at h
  · exact absurd h (by simp)
  · rw [Option.some.injEq] at h
    subst h
    rfl

/-- Witness for `c6_default_capacity_axis` at a concrete one-point
timeline. -/
theorem c6_default_capacity_axis_witness :
    renderBatteryChart [TimelinePoint.mk 100 0 5 none false] none none
        = some (BatteryChartSpec.mk [((100 : Int), (0 : ℚ))] [((100 : Int), (5 : ℚ))] []
            (YAxis.mk 0 15) (YAxis.mk 0 3000) [] 0)
      ∧ (BatteryChartSpec.mk [((100 : Int), (0 : ℚ))] [((100 : Int), (5 : ℚ))] []
            (YAxis.mk 0 15) (YAxis.mk 0 3000) [] 0).capacityAxis = YAxis.mk 0 15 := by
  constructor
  · rfl
  · exact c6_default_capacity_axis [TimelinePoint.mk 100 0 5 none false] none _ rfl

/-- Claim C7: the battery chart spec contains exactly one point marker per
timeline point with a non-`null` spot price, placed at the point's instant
with vertical position `price * 2` (the fixed scale factor 2) and labelled
with the unscaled price to one decimal place. -/
theorem c7_spot_annots_scaled_by_two :
    ∀ (tl : List TimelinePoint) (mc cur : Option ℚ) (spec : BatteryChartSpec),
      renderBatteryChart tl mc cur = some spec →
      spec.annots
        = (tl.filterMap
            (fun pt => pt.spot_price_czk.map (fun p => (pt.timestamp, p)))).map
            (fun tp => AnnotPoint.mk tp.1 (tp.2 * 2) (toFixed1 tp.2)) := by
  intro tl mc cur spec h
  unfold renderBatteryChart at h
  split at h
  · exact absurd h (by simp)
  · rw [Option.some.injEq] at h
    subst h
    show (collectBatteryArrays tl).spotPrices.map _ = _
    rw [collectBatteryArrays_spotPrices]

/-- Witness for `c7_spot_annots_scaled_by_two` at a concrete timeline with
one spot price `3`: the single marker sits at `y = 3 * 2 = 6` and is
labelled with the unscaled `3.0` (30 tenths). -/
theorem c7_spot_annots_scaled_by_two_witness :
    (BatteryChartSpec.mk [((100 : Int), (0 : ℚ))] [((100 : Int), (5 : ℚ))] []
          (YAxis.mk 0 15) (YAxis.mk 0 3000)
          [AnnotPoint.mk 100 ((3 : ℚ) * 2) (toFixed1 3)] 0).annots
      = (([TimelinePoint.mk 100 0 5 (some 3) false]).filterMap
          (fun pt => pt.spot_price_czk.map (fun p => (pt.timestamp, p)))).map
          (fun tp => AnnotPoint.mk tp.1 (tp.2 * 2) (toFixed1 tp.2))
      ∧ (3 : ℚ) * 2 = 6 ∧ toFixed1 3 = 30 := by
  refine ⟨?_, by norm_num, by norm_num [toFixed1, round_eq]⟩
  exact c7_spot_annots_scaled_by_two [TimelinePoint.mk 100 0 5 (some 3) false] none none
    (BatteryChartSpec.mk [((100 : Int), (0 : ℚ))] [((100 : Int), (5 : ℚ))] []
      (YAxis.mk 0 15) (YAxis.mk 0 3000)
      [AnnotPoint.mk 100 ((3 : ℚ) * 2) (toFixed1 3)] 0) rfl

/-- Claim C8 counterexample: a present-but-empty `entry_id` (`?entry_id=`,
which `URLSearchParams.get` returns as `""`) together with a present
non-empty `inverter_sn` still makes `init` throw — both parameters are
present, yet initialization does not proceed, because the source tests JS
truthiness rather than presence. -/
theorem c8_counterexample :
    (Option.some blankParam).isSome = true
      ∧ (Option.some snParam).isSome = true
      ∧ init (some blankParam) (some snParam)
        = ⟨InitResult.error missingParamsMsg, false, false⟩ :=
  ⟨rfl, rfl, by decide⟩

/-- Claim C8, amended: `init` fails fast with the missing-parameters error —
rendering no charts and scheduling no periodic refresh — exactly when
either parameter is absent or empty (JS-falsy); when both are present and
non-empty, initialization proceeds (charts loaded, refresh scheduled). -/
theorem c8_params_falsy_fail_fast :
    (∀ (e s : Option String), jsTruthy e = false ∨ jsTruthy s = false →
        init e s = ⟨InitResult.error missingParamsMsg, false, false⟩)
      ∧ (∀ (e s : Option String), jsTruthy e = true → jsTruthy s = true →
          init e s = ⟨InitResult.ok, true, true⟩) := by
  constructor
  · intro e s h
    rcases h with h | h <;> simp [init, h]
  · intro e s he hs
    simp [init, he, hs]

/-- Witness for `c8_params_falsy_fail_fast`: an absent `entry_id` fails
fast; both parameters present and non-empty proceed. -/
theorem c8_params_falsy_fail_fast_witness :
    init none (some snParam) = ⟨InitResult.error missingParamsMsg, false, false⟩
      ∧ init (some entryParam) (some snParam) = ⟨InitResult.ok, true, true⟩ := by
  constructor
  · exact c8_params_falsy_fail_fast.1 none (some snParam) (Or.inl rfl)
  · exact c8_params_falsy_fail_fast.2 (some entryParam) (some snParam)
      (by decide) (by decide)

/-- Claim C10: any JS-falsy `max_capacity_kwh` — an explicit `0` just like
an absent value — makes the left axis maximum fall back to `15`, and
consequently the capacity axis maximum produced by the battery chart
builder is never `0`. -/
theorem c10_axis_max_never_zero :
    (∀ (tl : List TimelinePoint) (cur : Option ℚ) (spec : BatteryChartSpec),
        renderBatteryChart tl (some 0) cur = some spec → spec.capacityAxis.max = 15)
      ∧ (∀ (tl : List TimelinePoint) (mc cur : Option ℚ) (spec : BatteryChartSpec),
          renderBatteryChart tl mc cur = some spec → ¬ spec.capacityAxis.max = 0) := by
  constructor
  · intro tl cur spec h
    unfold renderBatteryChart at h
    split at h
    · exact absurd h (by simp)
    · rw [Option.some.injEq] at h
      subst h
      show jsNumOr (some 0) 15 = 15
      norm_num [jsNumOr]
  · intro tl mc cur spec h
    unfold renderBatteryChart at h
    split at h
    · exact absurd h (by simp)
    · rw [Option.some.injEq] at h
      subst h
      show ¬ jsNumOr mc 15 = 0
      cases mc with
      | none => norm_num [jsNumOr]
      | some x =>
        by_cases hx : x = 0 <;> simp [jsNumOr, hx]

/-- Witness for `c10_axis_max_never_zero` at a concrete timeline with an
explicit `max_capacity_kwh = 0`. -/
theorem c10_axis_max_never_zero_witness :
    renderBatteryChart [TimelinePoint.mk 100 0 5 none false] (some 0) none
        = some (BatteryChartSpec.mk [((100 : Int), (0 : ℚ))] [((100 : Int), (5 : ℚ))] []
            (YAxis.mk 0 15) (YAxis.mk 0 3000) [] 0)
      ∧ (YAxis.mk (0 : ℚ) 15).max = 15
      ∧ ¬ (YAxis.mk (0 : ℚ) 15).max = 0 := by
  have hrender : renderBatteryChart [TimelinePoint.mk 100 0 5 none false] (some 0) none
      = some (BatteryChartSpec.mk [((100 : Int), (0 : ℚ))] [((100 : Int), (5 : ℚ))] []
          (YAxis.mk 0 15) (YAxis.mk 0 3000) [] 0) := by
    norm_num [renderBatteryChart, collectBatteryArrays, collectStep, jsNumOr]
  refine ⟨hrender, ?_, ?_⟩
  · exact c10_axis_max_never_zero.1 [TimelinePoint.mk 100 0 5 none false] none _ hrender
  · exact c10_axis_max_never_zero.2 [TimelinePoint.mk 100 0 5 none false] (some 0) none _
      hrender

end OigCloudDashboard
